import Mathlib

/-!
Verification development for the blorg static site generator.

The Go sources are shallowly embedded below:
* front-matter values and the Go maps that hold them become a small variant
  type and association lists;
* the layout-chain loop of `Site.render` (commands/serve.go, second part)
  becomes a fuel-indexed function, since the Go loop has no termination
  guarantee;
* the liquid template engine is out of scope for the spec and is modelled as
  a function field on `Template`;
* `Parse`, `TargetExt` (markup code), `buildTarget` (commands.go), the
  watcher event loop, `rebuildSite` and the event-broker control loop are
  embedded as pure functions or trace-producing functions further down.
-/

set_option maxHeartbeats 1000000

namespace Blorg

/-- Structured front-matter values produced by the yaml metadata parser.
The Go code stores them untyped (interface values); the claims only ever
distinguish string values from non-string values, so a small closed variant
is enough to embed them. -/
inductive Value where
  | str : String → Value
  | bool : Bool → Value
  | int : Int → Value
  | strList : List String → Value
deriving DecidableEq

/-- Association-list embedding of a Go map: lookup. A missing key yields
`none`, matching the nil zero value a Go map read returns. -/
def assocLookup {κ α : Type} [DecidableEq κ] : List (κ × α) → κ → Option α
  | [], _ => none
  | (k, v) :: rest, key => if k = key then some v else assocLookup rest key

/-- Association-list embedding of a Go map: set, overwriting the key when
present. -/
def assocSet {κ α : Type} [DecidableEq κ] : List (κ × α) → κ → α → List (κ × α)
  | [], key, v => [(key, v)]
  | (k, w) :: rest, key, v =>
    if k = key then (key, v) :: rest else (k, w) :: assocSet rest key v

/-- Association-list embedding of a Go map: delete. -/
def assocDelete {κ α : Type} [DecidableEq κ] : List (κ × α) → κ → List (κ × α)
  | [], _ => []
  | (k, w) :: rest, key => if k = key then rest else (k, w) :: assocDelete rest key

/-- Front-matter metadata of one template, the Go `map[string]interface{}`. -/
abbrev Metadata := List (String × Value)

/-- Entries of the rendering context map built by `Site.render`. The
`config`, `posts` and `tags` entries of the base context never influence the
control flow the claims are about, so `posts` and `tags` are opaque
markers. -/
inductive CtxVal where
  | meta : Metadata → CtxVal
  | text : String → CtxVal
  | configV : List (String × String) → CtxVal
  | postsV : CtxVal
  | tagsV : CtxVal
deriving DecidableEq

/-- The rendering context, the Go `map[string]interface{}` passed to
`Template.Render`. -/
abbrev Ctx := List (String × CtxVal)

/-- A parsed template. The compiled liquid body together with the engine is
an external collaborator per the spec, so `Render` is kept as an abstract
function of the context that can fail, exactly the shape of the Go method
`templates.Template.Render(ctx)`. -/
structure Template where
  SrcPath : String
  Metadata : Metadata
  Render : Ctx → Except String String

/-- The site aggregate (commands.go of the site model). Only `config` and
`layouts` take part in the rendering claims; `posts`, `pages`, `tags` and
the unused `renderCache` feed nothing but the opaque base-context markers. -/
structure Site where
  config : List (String × String)
  layouts : List (String × Template)

/-- `Site.baseContext`: the shared context `{config, posts, tags}`. -/
def Site.baseContext (site : Site) : Ctx :=
  [("config", CtxVal.configV site.config), ("posts", CtxVal.postsV), ("tags", CtxVal.tagsV)]

/-- Possible outcomes of `Site.render`. `panicked` is the Go runtime panic
raised by the unchecked type assertion `layout.(string)`; `running` means
the loop has not finished within the given fuel bound. -/
inductive Outcome where
  | ok : String → Outcome
  | err : String → Outcome
  | panicked : Outcome
  | running : Outcome
deriving DecidableEq

/-- The layout loop of `Site.render`:

    layout := templ.Metadata["layout"]
    for layout != nil && err == nil {
      if layout_templ, ok := site.layouts[layout.(string)]; ok {
        ctx["layout"] = layout_templ.Metadata
        ctx["content"] = content
        content, err = layout_templ.Render(ctx)
        layout = layout_templ.Metadata["layout"]
      } else {
        return "", fmt.Errorf("layout not found")
      }
    }

One unit of fuel is one loop iteration, i.e. one layout substitution; the
loop itself has no bound, so exhausting any fuel yields `running`. The type
assertion `layout.(string)` panics on a non-string value before the map
index is evaluated. When `Render` fails the loop exits through its
condition and the error is returned. -/
def renderLayouts (site : Site) : Nat → Option Value → Ctx → String → Outcome
  | _, none, _, content => Outcome.ok content
  | 0, some _, _, _ => Outcome.running
  | fuel + 1, some layout, ctx, content =>
    match layout with
    | Value.str name =>
      match assocLookup site.layouts name with
      | some layoutTempl =>
        let ctx2 := assocSet (assocSet ctx "layout" (CtxVal.meta layoutTempl.Metadata))
          "content" (CtxVal.text content)
        match layoutTempl.Render ctx2 with
        | Except.ok content2 =>
          renderLayouts site fuel (assocLookup layoutTempl.Metadata "layout") ctx2 content2
        | Except.error e => Outcome.err e
      | none => Outcome.err ("layout '" ++ name ++ "' not found")
    | _ => Outcome.panicked

/-- The context `Site.render` starts from: base context plus
`ctx["page"] = templ.Metadata`. -/
def Site.renderCtx (site : Site) (templ : Template) : Ctx :=
  assocSet site.baseContext "page" (CtxVal.meta templ.Metadata)

/-- `Site.render` (commands.go of the site model): render the template body
with the base context plus `page`, then run the layout loop. `fuel` bounds
the number of loop iterations observed; the Go code has no such bound. -/
def Site.render (site : Site) (fuel : Nat) (templ : Template) : Outcome :=
  match templ.Render (site.renderCtx templ) with
  | Except.error e => Outcome.err e
  | Except.ok content =>
    renderLayouts site fuel (assocLookup templ.Metadata "layout") (site.renderCtx templ) content

/-- An acyclic layout chain: the list of layout templates reached by
following the `layout` metadata key through `site.layouts`, ending at a
template whose metadata has no `layout` key. -/
inductive ChainSpec (site : Site) : Option Value → List Template → Prop where
  | nil : ChainSpec site none []
  | cons {name : String} {t : Template} {ts : List Template} :
      assocLookup site.layouts name = some t →
      ChainSpec site (assocLookup t.Metadata "layout") ts →
      ChainSpec site (some (Value.str name)) (t :: ts)

/-- Reference fold describing N layout substitutions: each step re-renders
the parent compiled body with a context where `layout` is the parent
metadata and `content` is the previously rendered output. -/
def chainFold (site : Site) : List Template → Ctx → String → Outcome
  | [], _, content => Outcome.ok content
  | t :: ts, ctx, content =>
    let ctx2 := assocSet (assocSet ctx "layout" (CtxVal.meta t.Metadata))
      "content" (CtxVal.text content)
    match t.Render ctx2 with
    | Except.ok content2 => chainFold site ts ctx2 content2
    | Except.error e => Outcome.err e

/-- `Site.render` loops forever on the input: whatever iteration bound is
observed, the loop is still running. -/
def rendersForever (site : Site) (templ : Template) : Prop :=
  ∀ fuel, Site.render site fuel templ = Outcome.running

/-! ## Template parser (markup code: `Parse`) -/

/-- The front matter delimiter `FM_SEPARATOR`. -/
def FM_SEPARATOR : String := "---"

/-- `strings.TrimSuffix`: drop the suffix when present, otherwise return the
string unchanged. -/
def trimSuffix (s suffix : String) : String :=
  if s.endsWith suffix then s.dropRight suffix.length else s

/-- `strings.TrimSpace`: drop leading and trailing whitespace. -/
def trimSpace (s : String) : String :=
  String.mk (((s.data.dropWhile Char.isWhitespace).reverse.dropWhile Char.isWhitespace).reverse)

/-- The scanner loop of `Parse` over the lines after the opening delimiter:
every line gets its newline back and is appended to the yaml block until a
line trimming to the delimiter closes the block; later lines accumulate as
the liquid body. Returns (yamlContent, liquidContent, yamlClosed). -/
def splitFrontMatter : List String → String → String → Bool → String × String × Bool
  | [], yamlContent, liquidContent, yamlClosed => (yamlContent, liquidContent, yamlClosed)
  | l :: rest, yamlContent, liquidContent, yamlClosed =>
    if yamlClosed then splitFrontMatter rest yamlContent (liquidContent ++ l ++ "\n") yamlClosed
    else if trimSpace l = FM_SEPARATOR then splitFrontMatter rest yamlContent liquidContent true
    else splitFrontMatter rest (yamlContent ++ l ++ "\n") liquidContent yamlClosed

/-- Result of `Parse`. The Go function returns a `(*Template, error)` pair:
`(nil, nil)` is `noTemplate`, `(nil, err)` is `parseErr`, and a parsed
template carries the front matter metadata and the compiled body source. -/
inductive ParseResult where
  | noTemplate : ParseResult
  | parseErr : String → ParseResult
  | parsed : Metadata → String → ParseResult
deriving DecidableEq

/-- The part of `Parse` that runs once the first line matched the
delimiter: split the remaining lines, trim one trailing newline off the
body, fail when the front matter never closed, then hand the yaml block to
the yaml parser (skipped when empty) and the body to the liquid compiler.
The yaml parser and the liquid compiler are external collaborators, passed
in as functions. -/
def parseFrontMatterRest (yamlUnmarshal : String → Except String Metadata)
    (parseTemplateAndCache : String → Except String Unit)
    (rest : List String) : ParseResult :=
  match splitFrontMatter rest "" "" false with
  | (yamlContent, liquidContent0, yamlClosed) =>
    let liquidContent := trimSuffix liquidContent0 "\n"
    if yamlClosed then
      match (if yamlContent = "" then Except.ok [] else yamlUnmarshal yamlContent) with
      | Except.error e => ParseResult.parseErr ("invalid yaml format: " ++ e)
      | Except.ok metadata =>
        match parseTemplateAndCache liquidContent with
        | Except.error e => ParseResult.parseErr e
        | Except.ok _ => ParseResult.parsed metadata liquidContent
    else ParseResult.parseErr "front matter not closed"

/-- `Parse` (markup code): scan the first line; if it does not trim to the
front matter delimiter the file is not a template (`noTemplate`, not an
error). The file is embedded as the list of lines its scanner produces; an
empty file gives the scanner an empty first line. -/
def Parse (yamlUnmarshal : String → Except String Metadata)
    (parseTemplateAndCache : String → Except String Unit)
    (lines : List String) : ParseResult :=
  if trimSpace (lines.headD "") ≠ FM_SEPARATOR then ParseResult.noTemplate
  else parseFrontMatterRest yamlUnmarshal parseTemplateAndCache lines.tail

/-! ## Extensions (`filepath.Ext`, `Template.TargetExt`) -/

/-- Scan of `filepath.Ext` over the reversed character list: stop at the
path separator, return the suffix from the final dot. `acc` holds the
characters already passed, in forward order. -/
def extScan : List Char → List Char → List Char
  | [], _ => []
  | c :: rest, acc =>
    if c = '/' then []
    else if c = '.' then '.' :: acc
    else extScan rest (c :: acc)

/-- `filepath.Ext`: the suffix beginning at the final dot in the final
slash-separated element of the path; empty when there is no dot. -/
def filepathExt (p : String) : String :=
  String.mk (extScan p.data.reverse [])

/-- `Template.SrcExt`: extension of the template source file. -/
def Template.SrcExt (templ : Template) : String :=
  filepathExt templ.SrcPath

/-- `TargetExt` on a path: markdown and org map to html, anything else
passes through unchanged. -/
def TargetExt (srcPath : String) : String :=
  let ext := filepathExt srcPath
  if ext = ".org" ∨ ext = ".md" then ".html" else ext

/-- `Template.TargetExt` (markup code): extension for the output format. -/
def Template.TargetExt (templ : Template) : String :=
  Blorg.TargetExt templ.SrcPath

/-! ## Build pipeline (commands.go: `buildTarget`) -/

/-- `SRC_DIR` constant of commands.go. -/
def SRC_DIR : String := "src"

/-- `TARGET_DIR` constant of commands.go. -/
def TARGET_DIR : String := "target"

/-- A source file as the build walk sees it: its path relative to the
source directory and its content, embedded as the list of lines the
template parser scans. Copying the file verbatim is modelled as reusing
this value unchanged. -/
structure SourceFile where
  subpath : String
  lines : List String
deriving DecidableEq

/-- Result of `site.RenderTemplate`: the Go `(templateFound, extension,
content, err)` tuple. -/
inductive RTResult where
  | noTemplate : RTResult
  | rendered : String → String → RTResult
  | failed : String → RTResult
deriving DecidableEq

/-- Modelled from the spec: `site.RenderTemplate` lives in the site
package, whose source is not part of this tree. Per the spec, the build
pipeline invokes the Template Parser on each file; a file the parser
reports as not a template yields the no-template result so the caller
treats it as a static asset, and a file that parsed as a template is
rendered (the concrete renderer stays an external collaborator) and
reported together with its target extension. -/
def RenderTemplate (yamlUnmarshal : String → Except String Metadata)
    (parseTemplateAndCache : String → Except String Unit)
    (render : Metadata → String → Except String String)
    (f : SourceFile) : RTResult :=
  match Parse yamlUnmarshal parseTemplateAndCache f.lines with
  | ParseResult.noTemplate => RTResult.noTemplate
  | ParseResult.parseErr e => RTResult.failed e
  | ParseResult.parsed metadata body =>
    match render metadata body with
    | Except.error e => RTResult.failed e
    | Except.ok content => RTResult.rendered (TargetExt (SRC_DIR ++ "/" ++ f.subpath)) content

/-- What the build writes for one file: a target path plus either rendered
bytes or the source file copied unchanged. -/
inductive FileData where
  | rendered : String → FileData
  | original : SourceFile → FileData
deriving DecidableEq

/-- Outcome of the per-file build step. -/
inductive BuildOutput where
  | write : String → FileData → BuildOutput
  | buildError : String → BuildOutput
deriving DecidableEq

/-- Per-file body of the WalkDir closure in `buildTarget` (commands.go):
mirror the relative path under the target directory; on a template, remap
the extension (`TrimSuffix(targetPath, Ext(targetPath)) + extension`) and
write the rendered content; otherwise copy the source file unchanged;
render errors abort. -/
def buildTargetFile (yamlUnmarshal : String → Except String Metadata)
    (parseTemplateAndCache : String → Except String Unit)
    (render : Metadata → String → Except String String)
    (f : SourceFile) : BuildOutput :=
  let targetPath := TARGET_DIR ++ "/" ++ f.subpath
  match RenderTemplate yamlUnmarshal parseTemplateAndCache render f with
  | RTResult.failed e => BuildOutput.buildError e
  | RTResult.rendered extension content =>
    BuildOutput.write (trimSuffix targetPath (filepathExt targetPath) ++ extension)
      (FileData.rendered content)
  | RTResult.noTemplate => BuildOutput.write targetPath (FileData.original f)

/-! ## Debounced watcher (serve.go: `setupWatcher`, `rebuildSite`) -/

/-- The steps `rebuildSite` can take, in the order they appear in its
trace. -/
inductive RebuildAction where
  | addWatches : RebuildAction
  | logWatchError : RebuildAction
  | loadSite : RebuildAction
  | logLoadError : RebuildAction
  | buildSite : RebuildAction
  | logBuildError : RebuildAction
  | publish : RebuildAction
deriving DecidableEq

/-- Trace semantics of `rebuildSite` (serve.go): re-add all watches (an
error here is only logged, the rebuild continues), then load the site
(an error logs and returns), then build (an error logs and returns), then
publish the rebuild notification. The three booleans say which of the
fallible steps fail. -/
def rebuildSite (addErr loadErr buildErr : Bool) : List RebuildAction :=
  [RebuildAction.addWatches]
    ++ (if addErr then [RebuildAction.logWatchError] else [])
    ++ [RebuildAction.loadSite]
    ++ (if loadErr then [RebuildAction.logLoadError]
        else [RebuildAction.buildSite]
          ++ (if buildErr then [RebuildAction.logBuildError] else [RebuildAction.publish]))

namespace fsnotify

/-- fsnotify operation bits: Create = 1 << 0 and so on. -/
def Create : Nat := 1

/-- fsnotify Write bit. -/
def Write : Nat := 2

/-- fsnotify Remove bit. -/
def Remove : Nat := 4

/-- fsnotify Rename bit. -/
def Rename : Nat := 8

/-- fsnotify Chmod bit. -/
def Chmod : Nat := 16

end fsnotify

/-- An fsnotify event: file name plus operation bitmask. -/
structure FsEvent where
  Name : String
  Op : Nat
deriving DecidableEq

/-- fsnotify `Event.Has`: reports whether the event holds the operation,
`o&h != 0`. -/
def FsEvent.Has (e : FsEvent) (op : Nat) : Bool :=
  e.Op &&& op != 0

/-- What the watcher goroutine does to the debounce timer for one event. -/
inductive WatcherAction where
  | drop : WatcherAction
  | armRebuild : WatcherAction
deriving DecidableEq

/-- Per-event body of the select loop in `setupWatcher` (serve.go): chmod
events are noisy and skipped with `continue`; for anything else the pending
debounce timer is stopped and re-armed at 100ms. -/
def handleWatchEvent (e : FsEvent) : WatcherAction :=
  if e.Has fsnotify.Chmod then WatcherAction.drop else WatcherAction.armRebuild

/-! ## Event broker (serve.go: `newEventBroker`, `unsubscribe`) -/

/-- A subscription message: `outEvents = none` is the nil channel marking
an unsubscribe request; channels are identified by numeric handles. -/
structure Subscription where
  id : Nat
  outEvents : Option Nat
deriving DecidableEq

/-- Result of one spin of the broker control loop on a subscription
message. -/
inductive BrokerStep where
  | ok : List (Nat × Nat) → BrokerStep
  | panicked : BrokerStep
deriving DecidableEq

/-- The subscription branch of the control loop in `newEventBroker`: a
message with a channel registers it under the id; a message with the nil
channel closes `broker.subscribers[msg.id]` and deletes the entry. A map
read of an absent id yields the nil channel, and `close` of a nil channel
panics, which in this goroutine takes the whole process down. -/
def handleSubscription (subscribers : List (Nat × Nat)) (msg : Subscription) : BrokerStep :=
  match msg.outEvents with
  | some ch => BrokerStep.ok (assocSet subscribers msg.id ch)
  | none =>
    match assocLookup subscribers msg.id with
    | some _ => BrokerStep.ok (assocDelete subscribers msg.id)
    | none => BrokerStep.panicked

/-- `EventBroker.unsubscribe`: sends `Subscription{id: id, outEvents: nil}`
to the control loop. -/
def unsubscribe (id : Nat) : Subscription :=
  { id := id, outEvents := none }

/-! ## Concrete instances used by witnesses and counterexamples -/

/-- A layout whose own layout is itself: the one-step cycle a -> a. -/
def cycLayout : Template :=
  { SrcPath := "layouts/a.html", Metadata := [("layout", Value.str "a")],
    Render := fun _ => Except.ok "wrapped" }

/-- Site holding the self-referential layout. -/
def cycSite : Site :=
  { config := [], layouts := [("a", cycLayout)] }

/-- A page whose layout chain enters the cycle a -> a. -/
def cycTempl : Template :=
  { SrcPath := "src/index.html", Metadata := [("layout", Value.str "a")],
    Render := fun _ => Except.ok "body" }

/-- Layout b of the two-step cycle b -> c -> b. -/
def cycB : Template :=
  { SrcPath := "layouts/b.html", Metadata := [("layout", Value.str "c")],
    Render := fun _ => Except.ok "fromB" }

/-- Layout c of the two-step cycle b -> c -> b. -/
def cycC : Template :=
  { SrcPath := "layouts/c.html", Metadata := [("layout", Value.str "b")],
    Render := fun _ => Except.ok "fromC" }

/-- Site holding the two-step layout cycle. -/
def cyc2Site : Site :=
  { config := [], layouts := [("b", cycB), ("c", cycC)] }

/-- A page whose layout chain enters the two-step cycle. -/
def cyc2Templ : Template :=
  { SrcPath := "src/page.html", Metadata := [("layout", Value.str "b")],
    Render := fun _ => Except.ok "body2" }

/-- A terminal layout: no `layout` key in its metadata. -/
def postLayout : Template :=
  { SrcPath := "layouts/post.html", Metadata := [],
    Render := fun _ => Except.ok "wrapped-body" }

/-- Site with the single terminal layout `post`. -/
def postSite : Site :=
  { config := [], layouts := [("post", postLayout)] }

/-- A page with the acyclic one-step chain page -> post. -/
def postTempl : Template :=
  { SrcPath := "src/hello.md", Metadata := [("layout", Value.str "post")],
    Render := fun _ => Except.ok "hello-body" }

/-- A template whose `layout` metadata value is a yaml number, not a
string. -/
def badLayoutTempl : Template :=
  { SrcPath := "src/bad.md", Metadata := [("layout", Value.int 3)],
    Render := fun _ => Except.ok "bad-body" }

/-- A template with no layout at all. -/
def plainTempl : Template :=
  { SrcPath := "src/plain.md", Metadata := [],
    Render := fun _ => Except.ok "plain" }

/-- A site with no layouts. -/
def emptySite : Site :=
  { config := [], layouts := [] }

/-- A static asset: its first line is not the front matter delimiter. -/
def staticFile : SourceFile :=
  { subpath := "notes/readme.txt", lines := ["hello world", "second line"] }

/-- Trivial yaml parser stand-in for witnesses. -/
def okYaml : String → Except String Metadata :=
  fun _ => Except.ok []

/-- Trivial liquid compiler stand-in for witnesses. -/
def okCompile : String → Except String Unit :=
  fun _ => Except.ok ()

/-- Trivial renderer stand-in for witnesses. -/
def okRenderFn : Metadata → String → Except String String :=
  fun _ body => Except.ok body

/-- Markdown template for the extension witness. -/
def mdTempl : Template :=
  { SrcPath := "src/notes/a.md", Metadata := [], Render := fun _ => Except.ok "" }

/-- Org template for the extension witness. -/
def orgTempl : Template :=
  { SrcPath := "src/b.org", Metadata := [], Render := fun _ => Except.ok "" }

/-- Plain-text template for the extension witness. -/
def txtTempl : Template :=
  { SrcPath := "src/c.txt", Metadata := [], Render := fun _ => Except.ok "" }

/-- A filesystem event carrying both Write and Chmod bits. -/
def chmodWriteEvent : FsEvent :=
  { Name := "src/post.md", Op := 18 }

/-! ## Lemmas about the layout loop -/

/-- One iteration of the layout loop when the layout name resolves. -/
theorem renderLayouts_cons (site : Site) (fuel : Nat) (name : String) (t : Template)
    (ctx : Ctx) (content : String)
    (hlook : assocLookup site.layouts name = some t) :
    renderLayouts site (fuel + 1) (some (Value.str name)) ctx content =
      (match t.Render (assocSet (assocSet ctx "layout" (CtxVal.meta t.Metadata))
          "content" (CtxVal.text content)) with
        | Except.ok content2 => renderLayouts site fuel (assocLookup t.Metadata "layout")
            (assocSet (assocSet ctx "layout" (CtxVal.meta t.Metadata))
              "content" (CtxVal.text content)) content2
        | Except.error e => Outcome.err e) := by
  simp only [renderLayouts, hlook]

/-- With enough fuel for the whole acyclic chain, the layout loop computes
exactly the chain fold. -/
theorem renderLayouts_chain_complete (site : Site) {l : Option Value} {ts : List Template}
    (h : ChainSpec site l ts) :
    ∀ fuel ctx content, ts.length ≤ fuel →
      renderLayouts site fuel l ctx content = chainFold site ts ctx content := by
  induction h with
  | nil =>
    intro fuel ctx content _
    cases fuel <;> rfl
  | @cons name t ts hlook hrest ih =>
    intro fuel ctx content hle
    cases fuel with
    | zero => simp at hle
    | succ n =>
      rw [renderLayouts_cons site n name t ctx content hlook]
      cases hr : t.Render (assocSet (assocSet ctx "layout" (CtxVal.meta t.Metadata))
          "content" (CtxVal.text content)) with
      | ok content2 =>
        simp only [chainFold, hr]
        refine ih n _ content2 ?_
        simp only [List.length_cons] at hle
        omega
      | error e => simp only [chainFold, hr]

/-- With less fuel than the chain length (and a chain on which every
render succeeds) the loop is still running: each substitution consumes one
unit of fuel, so an acyclic chain of length N needs exactly N
iterations. -/
theorem renderLayouts_chain_partial (site : Site) {l : Option Value} {ts : List Template}
    (h : ChainSpec site l ts) :
    ∀ fuel ctx content out, chainFold site ts ctx content = Outcome.ok out →
      fuel < ts.length → renderLayouts site fuel l ctx content = Outcome.running := by
  induction h with
  | nil =>
    intro fuel ctx content out _ hlt
    simp at hlt
  | @cons name t ts hlook hrest ih =>
    intro fuel ctx content out hfold hlt
    cases fuel with
    | zero => rfl
    | succ n =>
      rw [renderLayouts_cons site n name t ctx content hlook]
      cases hr : t.Render (assocSet (assocSet ctx "layout" (CtxVal.meta t.Metadata))
          "content" (CtxVal.text content)) with
      | ok content2 =>
        simp only [chainFold, hr] at hfold
        refine ih n _ content2 out hfold ?_
        simp only [List.length_cons] at hlt
        omega
      | error e =>
        simp only [chainFold, hr] at hfold
        exact Outcome.noConfusion hfold

/-- Along an acyclic chain every `layout` value is a string, so the loop
never reaches the panicking type assertion. -/
theorem renderLayouts_chain_no_panic (site : Site) {l : Option Value} {ts : List Template}
    (h : ChainSpec site l ts) :
    ∀ fuel ctx content, renderLayouts site fuel l ctx content ≠ Outcome.panicked := by
  induction h with
  | nil =>
    intro fuel ctx content
    cases fuel <;> simp [renderLayouts]
  | @cons name t ts hlook hrest ih =>
    intro fuel ctx content
    cases fuel with
    | zero => simp [renderLayouts]
    | succ n =>
      rw [renderLayouts_cons site n name t ctx content hlook]
      cases hr : t.Render (assocSet (assocSet ctx "layout" (CtxVal.meta t.Metadata))
          "content" (CtxVal.text content)) with
      | ok content2 => exact ih n _ content2
      | error e => simp

/-- Non-termination by invariant: when a set of layout pointers is closed
under one loop step (every member is a string naming a known layout whose
render succeeds and whose own layout pointer is again a member), the loop
never finishes, whatever the fuel. -/
theorem renderLayouts_running_of_invariant (site : Site) (P : Option Value → Prop)
    (hstep : ∀ l, P l → ∃ name t, l = some (Value.str name) ∧
      assocLookup site.layouts name = some t ∧
      (∀ ctx, ∃ c, t.Render ctx = Except.ok c) ∧
      P (assocLookup t.Metadata "layout")) :
    ∀ fuel l ctx content, P l → renderLayouts site fuel l ctx content = Outcome.running := by
  intro fuel
  induction fuel with
  | zero =>
    intro l ctx content hP
    obtain ⟨name, t, rfl, -, -, -⟩ := hstep l hP
    rfl
  | succ n ih =>
    intro l ctx content hP
    obtain ⟨name, t, rfl, hlook, hren, hnext⟩ := hstep _ hP
    rw [renderLayouts_cons site n name t ctx content hlook]
    obtain ⟨c2, hc2⟩ := hren (assocSet (assocSet ctx "layout" (CtxVal.meta t.Metadata))
      "content" (CtxVal.text content))
    simp only [hc2]
    exact ih _ _ c2 hnext

/-! ## Claim C1 -/

/-- Claim C1, amended: the code has no cycle detection and no LayoutCycle
error. For a template whose layout chain stays inside a cycle (here: any
set of layout pointers closed under the loop step), `Site.render` never
fails and never finishes — with every iteration bound it is still
running. -/
theorem render_cyclic_layout_diverges (site : Site) (templ : Template)
    (P : Option Value → Prop) (c0 : String)
    (hstart : P (assocLookup templ.Metadata "layout"))
    (hstep : ∀ l, P l → ∃ name t, l = some (Value.str name) ∧
      assocLookup site.layouts name = some t ∧
      (∀ ctx, ∃ c, t.Render ctx = Except.ok c) ∧
      P (assocLookup t.Metadata "layout"))
    (hinit : templ.Render (site.renderCtx templ) = Except.ok c0) :
    rendersForever site templ := by
  intro fuel
  simp only [Site.render, hinit]
  exact renderLayouts_running_of_invariant site P hstep fuel _ _ c0 hstart

/-- Claim C1, counterexample to the claim as stated: on the concrete
one-layout cycle a -> a, rendering does not fail with a LayoutCycle error
(or any error): at every iteration bound the loop is still running, i.e.
the program loops forever. -/
theorem render_cycle_counterexample : rendersForever cycSite cycTempl := by
  have hstep : ∀ l, l = some (Value.str "a") → ∃ name t, l = some (Value.str name) ∧
      assocLookup cycSite.layouts name = some t ∧
      (∀ ctx, ∃ c, t.Render ctx = Except.ok c) ∧
      assocLookup t.Metadata "layout" = some (Value.str "a") := by
    intro l hl
    subst hl
    exact ⟨"a", cycLayout, rfl, rfl, fun _ => ⟨"wrapped", rfl⟩, rfl⟩
  intro fuel
  have h0 : cycTempl.Render (cycSite.renderCtx cycTempl) = Except.ok "body" := rfl
  simp only [Site.render, h0]
  exact renderLayouts_running_of_invariant cycSite (fun l => l = some (Value.str "a"))
    hstep fuel _ _ "body" rfl

/-- Witness for C1: the divergence theorem applied to the concrete
two-layout cycle b -> c -> b, observed at iteration bound 9. -/
theorem render_cyclic_layout_diverges_witness :
    Site.render cyc2Site 9 cyc2Templ = Outcome.running := by
  have hstep : ∀ l, (l = some (Value.str "b") ∨ l = some (Value.str "c")) →
      ∃ name t, l = some (Value.str name) ∧
      assocLookup cyc2Site.layouts name = some t ∧
      (∀ ctx, ∃ c, t.Render ctx = Except.ok c) ∧
      (assocLookup t.Metadata "layout" = some (Value.str "b") ∨
        assocLookup t.Metadata "layout" = some (Value.str "c")) := by
    rintro l (rfl | rfl)
    · exact ⟨"b", cycB, rfl, rfl, fun _ => ⟨"fromB", rfl⟩, Or.inr rfl⟩
    · exact ⟨"c", cycC, rfl, rfl, fun _ => ⟨"fromC", rfl⟩, Or.inl rfl⟩
  exact render_cyclic_layout_diverges cyc2Site cyc2Templ
    (fun l => l = some (Value.str "b") ∨ l = some (Value.str "c")) "body2"
    (Or.inl rfl) hstep rfl 9

/-! ## Claim C2 -/

/-- Claim C2: for a template whose layout chain is acyclic of length N,
`Site.render` terminates and performs exactly N layout substitutions: with
at least N units of fuel it returns the chain fold result — each step
re-rendering the parent compiled body with a context holding `layout` =
parent metadata and `content` = the previous output, as `chainFold`
states — and with fewer than N units it is still running. -/
theorem render_acyclic_chain (site : Site) (templ : Template) (ts : List Template)
    (c0 out : String)
    (hinit : templ.Render (site.renderCtx templ) = Except.ok c0)
    (hchain : ChainSpec site (assocLookup templ.Metadata "layout") ts)
    (hfold : chainFold site ts (site.renderCtx templ) c0 = Outcome.ok out) :
    (∀ fuel, ts.length ≤ fuel → Site.render site fuel templ = Outcome.ok out) ∧
    (∀ fuel, fuel < ts.length → Site.render site fuel templ = Outcome.running) := by
  constructor
  · intro fuel hle
    simp only [Site.render, hinit]
    rw [renderLayouts_chain_complete site hchain fuel _ c0 hle]
    exact hfold
  · intro fuel hlt
    simp only [Site.render, hinit]
    exact renderLayouts_chain_partial site hchain fuel _ c0 out hfold hlt

/-- Witness for C2: the one-step chain page -> post renders with fuel 1 to
the wrapped output and is still running with fuel 0. -/
theorem render_acyclic_chain_witness :
    Site.render postSite 1 postTempl = Outcome.ok "wrapped-body" ∧
    Site.render postSite 0 postTempl = Outcome.running := by
  have h := render_acyclic_chain postSite postTempl [postLayout] "hello-body" "wrapped-body"
    rfl (ChainSpec.cons rfl ChainSpec.nil) rfl
  exact ⟨h.1 1 (by decide), h.2 0 (by decide)⟩

/-! ## Claim C9 -/

/-- Claim C9: when a template carries a `layout` metadata value that is
present but not a string, `Site.render` hits the unchecked type assertion
and panics instead of returning an error; and along a chain in which every
`layout` value is a string (ChainSpec), render never panics. -/
theorem render_layout_type_assertion :
    (∀ (site : Site) (templ : Template) (v : Value) (c0 : String) (fuel : Nat),
      assocLookup templ.Metadata "layout" = some v →
      (∀ s, v ≠ Value.str s) →
      templ.Render (site.renderCtx templ) = Except.ok c0 →
      Site.render site (fuel + 1) templ = Outcome.panicked) ∧
    (∀ (site : Site) (templ : Template) (ts : List Template) (fuel : Nat),
      ChainSpec site (assocLookup templ.Metadata "layout") ts →
      Site.render site fuel templ ≠ Outcome.panicked) := by
  constructor
  · intro site templ v c0 fuel hv hns hinit
    simp only [Site.render, hinit, hv]
    cases v with
    | str s => exact absurd rfl (hns s)
    | bool b => rfl
    | int n => rfl
    | strList l => rfl
  · intro site templ ts fuel hchain
    unfold Site.render
    cases hr : templ.Render (site.renderCtx templ) with
    | error e => simp
    | ok content => simpa using renderLayouts_chain_no_panic site hchain fuel _ content

/-- Witness for C9: the concrete template whose layout is the yaml number 3
panics, while a plain template never does. -/
theorem render_layout_type_assertion_witness :
    Site.render emptySite 1 badLayoutTempl = Outcome.panicked ∧
    Site.render emptySite 0 plainTempl ≠ Outcome.panicked := by
  constructor
  · exact render_layout_type_assertion.1 emptySite badLayoutTempl (Value.int 3) "bad-body" 0
      rfl (fun s h => Value.noConfusion h) rfl
  · exact render_layout_type_assertion.2 emptySite plainTempl [] 0 ChainSpec.nil

/-! ## Claim C3 -/

/-- Once the first line matched the delimiter, every exit of Parse is a
template or an error, never the no-template result. -/
theorem parseFrontMatterRest_ne_noTemplate
    (yamlUnmarshal : String → Except String Metadata)
    (parseTemplateAndCache : String → Except String Unit)
    (rest : List String) :
    parseFrontMatterRest yamlUnmarshal parseTemplateAndCache rest ≠ ParseResult.noTemplate := by
  unfold parseFrontMatterRest
  rcases splitFrontMatter rest "" "" false with ⟨yamlContent, liquidContent0, yamlClosed⟩
  cases yamlClosed with
  | false => simp
  | true =>
    simp only [if_true]
    cases (if yamlContent = "" then Except.ok [] else yamlUnmarshal yamlContent) with
    | error e => simp
    | ok metadata =>
      cases parseTemplateAndCache (trimSuffix liquidContent0 "\n") with
      | error e => simp
      | ok u => simp

/-- Claim C3: Parse returns the no-template result — a nil template with no
error, treated as a static asset by the caller — exactly when the first
line of the file, after trimming whitespace, differs from the front matter
delimiter. -/
theorem parse_no_template_iff
    (yamlUnmarshal : String → Except String Metadata)
    (parseTemplateAndCache : String → Except String Unit)
    (lines : List String) :
    Parse yamlUnmarshal parseTemplateAndCache lines = ParseResult.noTemplate ↔
      trimSpace (lines.headD "") ≠ FM_SEPARATOR := by
  unfold Parse
  by_cases h : trimSpace (lines.headD "") = FM_SEPARATOR
  · rw [if_neg (not_not_intro h)]
    exact iff_of_false
      (parseFrontMatterRest_ne_noTemplate yamlUnmarshal parseTemplateAndCache lines.tail)
      (not_not_intro h)
  · rw [if_pos h]
    exact iff_of_true rfl h

/-! ## Claim C4 -/

/-- Claim C4, counterexample to the claim as stated: in a fully successful
rebuild the first action is the watch re-registration, not the Site reload,
so the claimed order (reload and build first, watches second) is false. -/
theorem rebuild_order_counterexample :
    rebuildSite false false false =
      [RebuildAction.addWatches, RebuildAction.loadSite, RebuildAction.buildSite,
        RebuildAction.publish] ∧
    rebuildSite false false false ≠
      [RebuildAction.loadSite, RebuildAction.buildSite, RebuildAction.addWatches,
        RebuildAction.publish] := by
  decide

/-- Claim C4, amended: when the debounce timer fires, the rebuild performs
its actions in this order — first re-registration of watches on every
directory under the source tree, then the full Site reload and Build
Pipeline run, then publication of the rebuild notification. -/
theorem rebuild_order : ∀ addErr loadErr buildErr : Bool,
    ((rebuildSite addErr loadErr buildErr).head? = some RebuildAction.addWatches) ∧
    (RebuildAction.publish ∈ rebuildSite addErr loadErr buildErr →
      rebuildSite addErr loadErr buildErr =
        [RebuildAction.addWatches]
          ++ (if addErr then [RebuildAction.logWatchError] else [])
          ++ [RebuildAction.loadSite, RebuildAction.buildSite, RebuildAction.publish]) := by
  decide

/-- Witness for C4: the amended order theorem observed at the all-success
rebuild. -/
theorem rebuild_order_witness :
    (rebuildSite false false false).head? = some RebuildAction.addWatches ∧
    rebuildSite false false false =
      [RebuildAction.addWatches, RebuildAction.loadSite, RebuildAction.buildSite,
        RebuildAction.publish] :=
  ⟨(rebuild_order false false false).1, (rebuild_order false false false).2 (by decide)⟩

/-! ## Claim C5 -/

/-- Claim C5: the rebuild publishes a notification exactly when both the
Site load and the build succeed; a failed load or build returns without
publishing (watch-registration errors are merely logged and do not block
the notification). -/
theorem rebuild_publish_iff : ∀ addErr loadErr buildErr : Bool,
    RebuildAction.publish ∈ rebuildSite addErr loadErr buildErr ↔
      (loadErr = false ∧ buildErr = false) := by
  decide

/-! ## Claim C6 -/

/-- The Ext scan never looks past a path separator. -/
theorem extScan_append_slash (l : List Char) (rest : List Char) :
    ∀ acc, extScan (l ++ '/' :: rest) acc = extScan l acc := by
  induction l with
  | nil => intro acc; simp [extScan]
  | cons c l ih =>
    intro acc
    by_cases h1 : c = '/'
    · simp [extScan, h1]
    · by_cases h2 : c = '.'
      · simp [extScan, h1, h2]
      · simp [extScan, h1, h2, ih]

/-- Prefixing a directory never changes the extension of a path. -/
theorem filepathExt_append_slash (a b : String) :
    filepathExt (a ++ "/" ++ b) = filepathExt b := by
  unfold filepathExt
  have hdata : (a ++ "/" ++ b).data = a.data ++ '/' :: b.data := by
    simp [String.data_append]
  rw [hdata]
  have hrev : (a.data ++ '/' :: b.data).reverse = b.data.reverse ++ '/' :: a.data.reverse := by
    simp
  rw [hrev, extScan_append_slash]

/-- Claim C6: a source file that does not begin with the front matter
delimiter (so Parse reports no template) is written by the build to the
mirrored target path with its content the original source file, unchanged,
and with the same file extension as the source path. -/
theorem build_copies_static_files
    (yamlUnmarshal : String → Except String Metadata)
    (parseTemplateAndCache : String → Except String Unit)
    (render : Metadata → String → Except String String)
    (f : SourceFile)
    (h : trimSpace (f.lines.headD "") ≠ FM_SEPARATOR) :
    buildTargetFile yamlUnmarshal parseTemplateAndCache render f =
      BuildOutput.write (TARGET_DIR ++ "/" ++ f.subpath) (FileData.original f) ∧
    filepathExt (TARGET_DIR ++ "/" ++ f.subpath) = filepathExt (SRC_DIR ++ "/" ++ f.subpath) := by
  have hparse : Parse yamlUnmarshal parseTemplateAndCache f.lines = ParseResult.noTemplate := by
    unfold Parse
    rw [if_pos h]
  constructor
  · unfold buildTargetFile RenderTemplate
    rw [hparse]
  · rw [filepathExt_append_slash, filepathExt_append_slash]

/-- Witness for C6: a concrete two-line text file with no front matter is
copied unchanged to target/notes/readme.txt. -/
theorem build_copies_static_files_witness :
    buildTargetFile okYaml okCompile okRenderFn staticFile =
      BuildOutput.write "target/notes/readme.txt" (FileData.original staticFile) ∧
    filepathExt ("target/" ++ staticFile.subpath) = filepathExt ("src/" ++ staticFile.subpath) := by
  have h := build_copies_static_files okYaml okCompile okRenderFn staticFile (by decide)
  exact ⟨h.1, h.2⟩

/-! ## Claim C7 -/

/-- Claim C7: the target extension is .html when the source extension is
.md or .org, and is the source extension unchanged otherwise. -/
theorem targetExt_spec (templ : Template) :
    ((templ.SrcExt = ".md" ∨ templ.SrcExt = ".org") → templ.TargetExt = ".html") ∧
    (templ.SrcExt ≠ ".md" ∧ templ.SrcExt ≠ ".org" → templ.TargetExt = templ.SrcExt) := by
  unfold Template.TargetExt Template.SrcExt TargetExt
  constructor
  · rintro (h | h) <;> simp [h]
  · rintro ⟨h1, h2⟩
    rw [if_neg]
    rintro (h | h)
    · exact h2 h
    · exact h1 h

/-- Witness for C7: a markdown and an org template map to .html, a text
template with front matter keeps .txt. -/
theorem targetExt_spec_witness :
    mdTempl.TargetExt = ".html" ∧ orgTempl.TargetExt = ".html" ∧ txtTempl.TargetExt = ".txt" := by
  refine ⟨(targetExt_spec mdTempl).1 (Or.inl (by decide)),
    (targetExt_spec orgTempl).1 (Or.inr (by decide)), ?_⟩
  have h := (targetExt_spec txtTempl).2 ⟨by decide, by decide⟩
  rw [h]
  decide

/-! ## Claim C8 -/

/-- Claim C8: an unsubscribe message for an id that is not in the
subscriber registry (never subscribed, or already unsubscribed) makes the
broker control loop close the nil channel returned by the map read, which
panics. -/
theorem unsubscribe_unknown_id_panics (subscribers : List (Nat × Nat)) (id : Nat)
    (h : assocLookup subscribers id = none) :
    handleSubscription subscribers (unsubscribe id) = BrokerStep.panicked := by
  simp only [handleSubscription, unsubscribe, h]

/-- Witness for C8: unsubscribing id 2 from a registry holding only id 1
panics; so does unsubscribing id 1 a second time after its entry was
deleted. -/
theorem unsubscribe_unknown_id_panics_witness :
    handleSubscription [(1, 10)] (unsubscribe 2) = BrokerStep.panicked :=
  unsubscribe_unknown_id_panics [(1, 10)] 2 (by decide)

/-! ## Claim C10 -/

/-- Claim C10: any event whose operation bitmask has the Chmod bit set is
dropped by the watcher loop — whatever other bits, such as Write, it also
carries — so it never stops or re-arms the debounce timer. -/
theorem chmod_events_dropped (e : FsEvent) (h : e.Has fsnotify.Chmod = true) :
    handleWatchEvent e = WatcherAction.drop := by
  simp only [handleWatchEvent, h, if_true]

/-- Witness for C10: the concrete event with bitmask Write|Chmod carries a
content-modifying Write yet is dropped. -/
theorem chmod_events_dropped_witness :
    chmodWriteEvent.Has fsnotify.Write = true ∧
    handleWatchEvent chmodWriteEvent = WatcherAction.drop :=
  ⟨by decide, chmod_events_dropped chmodWriteEvent (by decide)⟩

end Blorg
